import Mathlib

/-!
Shallow embedding of `src/providers/cryptoauthlib/key_slot.rs` (parsec,
CryptoAuthLib provider): the ATECC key-slot data model, the compatibility
predicates and the lifecycle operations, with theorems checking the
natural-language specification against them.

Rust `&mut self` methods are embedded as state-passing functions returning
the `Result` together with the updated slot.  `Type` from
`parsec_interface::operations::psa_key_attributes` is named `PsaType`
because `Type` is reserved in Lean; `UsageFlags.export` is named
`export_` because `export` is a Lean keyword.  All other names follow the
source.
-/

/-- Software status of a ATECC slot (`KeySlotStatus` in the source). -/
inductive KeySlotStatus where
  | Free
  | Busy
  | Locked
deriving DecidableEq, Repr

/-- Hardware slot key type (`rust_cryptoauthlib::KeyType`).  `Rfu` stands
for the remaining reserved variants, which the source always handles
through wildcard arms. -/
inductive KeyType where
  | Aes
  | ShaOrText
  | P256EccKey
  | Rfu
deriving DecidableEq, Repr

/-- ECC-specific slot attributes (`rust_cryptoauthlib::EccKeyAttr`). -/
structure EccKeyAttr where
  is_private : Bool
  ext_sign : Bool
  int_sign : Bool
  ecdh_operation : Bool
  ecdh_secret_out : Bool
deriving DecidableEq, Repr

/-- Slot write configuration (`rust_cryptoauthlib::WriteConfig`). -/
inductive WriteConfig where
  | Always
  | PubInvalid
  | Never
  | Encrypt
deriving DecidableEq, Repr

/-- Read-key descriptor (`rust_cryptoauthlib::ReadKey`). -/
structure ReadKey where
  encrypt_read : Bool
  slot_number : Nat
deriving DecidableEq, Repr

/-- Hardware configuration of a slot (`rust_cryptoauthlib::SlotConfig`).
The core only interprets `key_type`, `no_mac`, `is_secret`, `pub_info`
and `ecc_key_attr.is_private`; the other provisioning fields are carried
verbatim. -/
structure SlotConfig where
  write_config : WriteConfig
  key_type : KeyType
  read_key : ReadKey
  ecc_key_attr : EccKeyAttr
  x509id : Nat
  auth_key : Nat
  write_key : Nat
  is_secret : Bool
  limited_use : Bool
  no_mac : Bool
  persistent_disable : Bool
  req_auth : Bool
  req_random : Bool
  lockable : Bool
  pub_info : Bool
deriving DecidableEq, Repr

/-- ECC curve families (`parsec_interface` `EccFamily`). -/
inductive EccFamily where
  | SecpK1
  | SecpR1
  | SecpR2
  | SectK1
  | SectR1
  | SectR2
  | BrainpoolPR1
  | Frp
  | Montgomery
deriving DecidableEq, Repr

/-- Diffie-Hellman group families (`parsec_interface` `DhFamily`). -/
inductive DhFamily where
  | Rfc7919
deriving DecidableEq, Repr

/-- Software key type (`parsec_interface` `Type`; renamed, `Type` is
reserved in Lean). -/
inductive PsaType where
  | RawData
  | Hmac
  | Derive
  | Aes
  | Des
  | Camellia
  | Arc4
  | Chacha20
  | RsaKeyPair
  | RsaPublicKey
  | EccKeyPair (curve_family : EccFamily)
  | EccPublicKey (curve_family : EccFamily)
  | DhKeyPair (group_family : DhFamily)
  | DhPublicKey (group_family : DhFamily)
deriving DecidableEq, Repr

/-- Hash algorithms (`psa_algorithm::Hash`, representative closed set). -/
inductive Hash where
  | Md5
  | Ripemd160
  | Sha1
  | Sha224
  | Sha256
  | Sha384
  | Sha512
  | Sha3_256
  | Sha3_512
deriving DecidableEq, Repr

/-- Hash policy inside a signature algorithm (`psa_algorithm::SignHash`). -/
inductive SignHash where
  | Any
  | Specific (hash : Hash)
deriving DecidableEq, Repr

/-- Full-length MAC algorithms (`psa_algorithm::FullLengthMac`). -/
inductive FullLengthMac where
  | Hmac (hash_alg : Hash)
  | CbcMac
  | Cmac
deriving DecidableEq, Repr

/-- MAC algorithms (`psa_algorithm::Mac`). -/
inductive Mac where
  | FullLength (mac : FullLengthMac)
  | Truncated (mac_alg : FullLengthMac) (mac_length : Nat)
deriving DecidableEq, Repr

/-- Unauthenticated cipher algorithms (`psa_algorithm::Cipher`). -/
inductive Cipher where
  | StreamCipher
  | Ctr
  | Cfb
  | Ofb
  | Xts
  | EcbNoPadding
  | CbcNoPadding
  | CbcPkcs7
deriving DecidableEq, Repr

/-- AEAD algorithms with default tag length
(`psa_algorithm::AeadWithDefaultLengthTag`). -/
inductive AeadWithDefaultLengthTag where
  | Ccm
  | Gcm
  | Chacha20Poly1305
deriving DecidableEq, Repr

/-- AEAD algorithms (`psa_algorithm::Aead`). -/
inductive Aead where
  | AeadWithDefaultLengthTag (alg : AeadWithDefaultLengthTag)
  | AeadWithShortenedTag (aead_alg : AeadWithDefaultLengthTag) (tag_length : Nat)
deriving DecidableEq, Repr

/-- Asymmetric signature algorithms (`psa_algorithm::AsymmetricSignature`). -/
inductive AsymmetricSignature where
  | RsaPkcs1v15Sign (hash_alg : SignHash)
  | RsaPkcs1v15SignRaw
  | RsaPss (hash_alg : SignHash)
  | Ecdsa (hash_alg : SignHash)
  | EcdsaAny
  | DeterministicEcdsa (hash_alg : SignHash)
deriving DecidableEq, Repr

/-- Asymmetric encryption algorithms
(`psa_algorithm::AsymmetricEncryption`). -/
inductive AsymmetricEncryption where
  | RsaPkcs1v15Crypt
  | RsaOaep (hash_alg : Hash)
deriving DecidableEq, Repr

/-- Raw key-agreement algorithms (`psa_algorithm::RawKeyAgreement`). -/
inductive RawKeyAgreement where
  | Ffdh
  | Ecdh
deriving DecidableEq, Repr

/-- Key-derivation algorithms (`psa_algorithm::KeyDerivation`); the core
never inspects the payload. -/
inductive KeyDerivation where
  | Hkdf (hash_alg : Hash)
  | Tls12Prf (hash_alg : Hash)
  | Tls12PskToMs (hash_alg : Hash)
deriving DecidableEq, Repr

/-- Key-agreement algorithms (`psa_algorithm::KeyAgreement`). -/
inductive KeyAgreement where
  | Raw (alg : RawKeyAgreement)
  | WithKeyDerivation (ka_alg : RawKeyAgreement) (kdf_alg : KeyDerivation)
deriving DecidableEq, Repr

/-- The algorithm of a key policy (`psa_algorithm::Algorithm`). -/
inductive Algorithm where
  | None
  | Hash (hash : Hash)
  | Mac (mac : Mac)
  | Cipher (cipher : Cipher)
  | Aead (aead : Aead)
  | AsymmetricSignature (alg : AsymmetricSignature)
  | AsymmetricEncryption (alg : AsymmetricEncryption)
  | KeyAgreement (alg : KeyAgreement)
  | KeyDerivation (alg : KeyDerivation)
deriving DecidableEq, Repr

/-- Key usage flags (`psa_key_attributes::UsageFlags`); `export` is
renamed `export_`, a Lean keyword otherwise. -/
structure UsageFlags where
  sign_hash : Bool
  verify_hash : Bool
  sign_message : Bool
  verify_message : Bool
  export_ : Bool
  encrypt : Bool
  decrypt : Bool
  cache : Bool
  copy : Bool
  derive : Bool
deriving DecidableEq, Repr

/-- Key lifetime (`psa_key_attributes::Lifetime`). -/
inductive Lifetime where
  | Volatile
  | Persistent
deriving DecidableEq, Repr

/-- Key policy (`psa_key_attributes::Policy`). -/
structure Policy where
  usage_flags : UsageFlags
  permitted_algorithms : Algorithm
deriving DecidableEq, Repr

/-- Software key attributes (`psa_key_attributes::Attributes`).  `bits`
is a `usize` in the source; no arithmetic is done on it, so `Nat` is an
exact model. -/
structure Attributes where
  lifetime : Lifetime
  key_type : PsaType
  bits : Nat
  policy : Policy
deriving DecidableEq, Repr

/-- Response status (`parsec_interface::requests::ResponseStatus`); only
the variants this module produces, plus one more so that "no other
error" is not vacuous. -/
inductive ResponseStatus where
  | PsaErrorNotSupported
  | PsaErrorNotPermitted
  | PsaErrorGenericError
deriving DecidableEq, Repr

/-- Hardware slot information (`AteccKeySlot`).  `ref_count` is a `u8`;
the module only compares it with 0 and writes 1, so `Nat` is an exact
model. -/
structure AteccKeySlot where
  ref_count : Nat
  status : KeySlotStatus
  config : SlotConfig
deriving DecidableEq, Repr

namespace AteccKeySlot

/-- `is_key_type_ok`: does the hardware `key_type` accept the software
key type (and bit length, for SecpR1 ECC keys)? -/
def is_key_type_ok (s : AteccKeySlot) (key_attr : Attributes) : Bool :=
  match key_attr.key_type with
  | PsaType.RawData => s.config.key_type == KeyType.ShaOrText
  | PsaType.Hmac => !s.config.no_mac
  | PsaType.Aes => s.config.key_type == KeyType.Aes
  | PsaType.EccKeyPair EccFamily.SecpR1
  | PsaType.EccPublicKey EccFamily.SecpR1 =>
      key_attr.bits == 256 && s.config.key_type == KeyType.P256EccKey
  | PsaType.Derive | PsaType.DhKeyPair _ | PsaType.DhPublicKey _ => false
  | _ => false

/-- The inner `match self.config.key_type` of `is_usage_flags_ok`'s
export/copy arm, verbatim; named so the export/copy rule can be stated
on its own. -/
def export_copy_ok (s : AteccKeySlot) (key_attr : Attributes) : Bool :=
  match s.config.key_type with
  | KeyType.Aes => true
  | KeyType.P256EccKey =>
      s.config.pub_info &&
        match key_attr.key_type with
        | PsaType.EccPublicKey _ | PsaType.DhPublicKey _ => true
        | _ => false
  | _ => true

/-- `is_usage_flags_ok`: running conjunction over the export/copy and
sign flag groups, with the source's early `return false` kept as an
`if` and its inline match named `export_copy_ok`. -/
def is_usage_flags_ok (s : AteccKeySlot) (key_attr : Attributes) : Bool :=
  let result : Bool := true
  let result : Bool :=
    if key_attr.policy.usage_flags.export_ || key_attr.policy.usage_flags.copy then
      result && s.export_copy_ok key_attr
    else result
  if !result then false
  else
    let result : Bool :=
      if key_attr.policy.usage_flags.sign_hash || key_attr.policy.usage_flags.sign_message then
        (result && (s.config.key_type == KeyType.P256EccKey)) &&
          s.config.ecc_key_attr.is_private
      else result
    result

/-- `is_permitted_algorithms_ok`: the fixed hardware-capability table
over the key policy's permitted algorithm. -/
def is_permitted_algorithms_ok (s : AteccKeySlot) (key_attr : Attributes) : Bool :=
  match key_attr.policy.permitted_algorithms with
  | Algorithm.Hash Hash.Sha256 => true
  | Algorithm.Mac (Mac.Truncated (FullLengthMac.Hmac Hash.Sha256) _)
  | Algorithm.Mac (Mac.FullLength (FullLengthMac.Hmac Hash.Sha256)) =>
      !s.config.no_mac
        && s.config.key_type != KeyType.P256EccKey
        && !s.config.ecc_key_attr.is_private
  | Algorithm.Mac (Mac.Truncated FullLengthMac.CbcMac _)
  | Algorithm.Mac (Mac.FullLength FullLengthMac.CbcMac)
  | Algorithm.Mac (Mac.Truncated FullLengthMac.Cmac _)
  | Algorithm.Mac (Mac.FullLength FullLengthMac.Cmac) =>
      !s.config.no_mac && s.config.key_type == KeyType.Aes
  | Algorithm.Cipher Cipher.CbcPkcs7
  | Algorithm.Cipher Cipher.Ctr
  | Algorithm.Cipher Cipher.Cfb
  | Algorithm.Cipher Cipher.Ofb =>
      s.config.key_type == KeyType.Aes
  | Algorithm.Aead (Aead.AeadWithDefaultLengthTag AeadWithDefaultLengthTag.Ccm)
  | Algorithm.Aead (Aead.AeadWithDefaultLengthTag AeadWithDefaultLengthTag.Gcm)
  | Algorithm.Aead (Aead.AeadWithShortenedTag AeadWithDefaultLengthTag.Ccm _)
  | Algorithm.Aead (Aead.AeadWithShortenedTag AeadWithDefaultLengthTag.Gcm _) =>
      s.config.key_type == KeyType.Aes
  | Algorithm.AsymmetricSignature (AsymmetricSignature.Ecdsa (SignHash.Specific Hash.Sha256)) =>
      s.config.is_secret
        && s.config.key_type == KeyType.P256EccKey
        && s.config.ecc_key_attr.is_private
  | Algorithm.AsymmetricSignature
      (AsymmetricSignature.DeterministicEcdsa (SignHash.Specific Hash.Sha256)) =>
      false
  | Algorithm.AsymmetricEncryption _ => false
  | Algorithm.KeyAgreement (KeyAgreement.Raw RawKeyAgreement.Ecdh)
  | Algorithm.KeyAgreement (KeyAgreement.WithKeyDerivation RawKeyAgreement.Ecdh _) =>
      s.config.key_type == KeyType.P256EccKey
  | _ => false

/-- `key_attr_vs_config`: check software key attributes against the
hardware slot configuration; each failing predicate maps to
`PsaErrorNotSupported`. -/
def key_attr_vs_config (s : AteccKeySlot) (key_attr : Attributes) :
    Except ResponseStatus Unit :=
  if !s.is_key_type_ok key_attr then
    Except.error ResponseStatus.PsaErrorNotSupported
  else if !s.is_usage_flags_ok key_attr then
    Except.error ResponseStatus.PsaErrorNotSupported
  else if !s.is_permitted_algorithms_ok key_attr then
    Except.error ResponseStatus.PsaErrorNotSupported
  else
    Except.ok ()

/-- `set_slot_status` (`&mut self` in the source): the result together
with the updated slot. -/
def set_slot_status (s : AteccKeySlot) (status : KeySlotStatus) :
    Except ResponseStatus Unit × AteccKeySlot :=
  if s.status == KeySlotStatus.Locked then
    (Except.error ResponseStatus.PsaErrorNotPermitted, s)
  else
    match status with
    | KeySlotStatus.Locked => (Except.error ResponseStatus.PsaErrorNotPermitted, s)
    | _ => (Except.ok (), { s with status := status })

/-- `reference_check_and_set` (`&mut self` in the source): the result
together with the updated slot. -/
def reference_check_and_set (s : AteccKeySlot) : Except Unit Unit × AteccKeySlot :=
  if 0 < s.ref_count then
    (Except.error (), s)
  else
    (Except.ok (), { s with ref_count := 1 })

/-- `is_free`: true exactly on status `Free`. -/
def is_free (s : AteccKeySlot) : Bool :=
  match s.status with
  | KeySlotStatus.Free => true
  | _ => false

end AteccKeySlot

/-! ### Concrete fixtures, mirroring the `SlotConfig` literals of the source tests -/

/-- Usage flags with every flag cleared. -/
def clearedFlags : UsageFlags :=
  { sign_hash := false, verify_hash := false, sign_message := false,
    verify_message := false, export_ := false, encrypt := false,
    decrypt := false, cache := false, copy := false, derive := false }

/-- ECC key attributes with every flag cleared. -/
def clearedEccAttr : EccKeyAttr :=
  { is_private := false, ext_sign := false, int_sign := false,
    ecdh_operation := false, ecdh_secret_out := false }

/-- An AES hardware slot configuration with MAC enabled. -/
def aesConfig : SlotConfig :=
  { write_config := WriteConfig.Always, key_type := KeyType.Aes,
    read_key := { encrypt_read := false, slot_number := 0 },
    ecc_key_attr := clearedEccAttr,
    x509id := 0, auth_key := 0, write_key := 0,
    is_secret := true, limited_use := false, no_mac := false,
    persistent_disable := false, req_auth := false, req_random := false,
    lockable := false, pub_info := false }

/-- A private P256 ECC hardware slot configuration. -/
def p256PrivateConfig : SlotConfig :=
  { write_config := WriteConfig.Always, key_type := KeyType.P256EccKey,
    read_key := { encrypt_read := false, slot_number := 0 },
    ecc_key_attr := { clearedEccAttr with is_private := true },
    x509id := 0, auth_key := 0, write_key := 0,
    is_secret := true, limited_use := false, no_mac := false,
    persistent_disable := false, req_auth := false, req_random := false,
    lockable := false, pub_info := true }

/-- A free, unclaimed AES slot. -/
def freeAesSlot : AteccKeySlot :=
  { ref_count := 0, status := KeySlotStatus.Free, config := aesConfig }

/-- A locked, unclaimed P256 slot. -/
def lockedP256Slot : AteccKeySlot :=
  { ref_count := 0, status := KeySlotStatus.Locked, config := p256PrivateConfig }

/-- Attributes of a 256-bit SecpR1 EC key pair for ECDSA-SHA-256 signing,
as in the source's end-to-end scenario 1. -/
def eccSignAttr : Attributes :=
  { lifetime := Lifetime.Persistent,
    key_type := PsaType.EccKeyPair EccFamily.SecpR1,
    bits := 256,
    policy :=
      { usage_flags := { clearedFlags with sign_hash := true, sign_message := true },
        permitted_algorithms :=
          Algorithm.AsymmetricSignature
            (AsymmetricSignature.Ecdsa (SignHash.Specific Hash.Sha256)) } }

/-- Attributes of an HMAC key with permitted algorithm full-length
HMAC-SHA-256 and no usage flag. -/
def hmacAttr : Attributes :=
  { lifetime := Lifetime.Persistent,
    key_type := PsaType.Hmac,
    bits := 256,
    policy :=
      { usage_flags := clearedFlags,
        permitted_algorithms :=
          Algorithm.Mac (Mac.FullLength (FullLengthMac.Hmac Hash.Sha256)) } }

/-! ### Sanity examples (the source's end-to-end scenarios) -/

example :
    ({ ref_count := 0, status := KeySlotStatus.Free, config := p256PrivateConfig } :
      AteccKeySlot).key_attr_vs_config eccSignAttr = Except.ok () := by rfl

example :
    freeAesSlot.key_attr_vs_config hmacAttr = Except.ok () := by rfl

/-! ### A normal form for `is_usage_flags_ok` -/

/-- `is_usage_flags_ok` as one boolean formula: each flag group either is
not requested or meets its rule. -/
theorem is_usage_flags_ok_eq (s : AteccKeySlot) (key_attr : Attributes) :
    s.is_usage_flags_ok key_attr =
      ((!(key_attr.policy.usage_flags.export_ || key_attr.policy.usage_flags.copy)
          || s.export_copy_ok key_attr) &&
        (!(key_attr.policy.usage_flags.sign_hash || key_attr.policy.usage_flags.sign_message)
          || (s.config.key_type == KeyType.P256EccKey && s.config.ecc_key_attr.is_private))) := by
  unfold AteccKeySlot.is_usage_flags_ok
  cases hex : key_attr.policy.usage_flags.export_ <;>
    cases hcp : key_attr.policy.usage_flags.copy <;>
      cases hsh : key_attr.policy.usage_flags.sign_hash <;>
        cases hsm : key_attr.policy.usage_flags.sign_message <;>
          cases heco : s.export_copy_ok key_attr <;>
            simp [hex, hcp, hsh, hsm, heco]

/-! ### Claim theorems -/

/-- C1: `key_attr_vs_config` returns `Ok` exactly when all three
predicates (`is_key_type_ok`, `is_usage_flags_ok`,
`is_permitted_algorithms_ok`) hold, and otherwise returns
`PsaErrorNotSupported`; it never returns any other error.  Totality of
the predicates is by construction: they are total Lean functions. -/
theorem key_attr_vs_config_verdict (s : AteccKeySlot) (key_attr : Attributes) :
    (s.key_attr_vs_config key_attr = Except.ok () ↔
      s.is_key_type_ok key_attr = true ∧ s.is_usage_flags_ok key_attr = true ∧
        s.is_permitted_algorithms_ok key_attr = true) ∧
    (s.key_attr_vs_config key_attr = Except.ok () ∨
      s.key_attr_vs_config key_attr = Except.error ResponseStatus.PsaErrorNotSupported) := by
  unfold AteccKeySlot.key_attr_vs_config
  cases h1 : s.is_key_type_ok key_attr <;>
    cases h2 : s.is_usage_flags_ok key_attr <;>
      cases h3 : s.is_permitted_algorithms_ok key_attr <;>
        simp

/-- C2: `is_key_type_ok` accepts exactly the pairs of the type table:
raw data on `ShaOrText`, HMAC on any slot with `no_mac` false, AES on
`Aes`, SecpR1 EC key pairs and public keys of exactly 256 bits on
`P256EccKey`; every other software key type (`Derive`, DH types, other
curve families, and the rest) is rejected. -/
theorem is_key_type_ok_table (s : AteccKeySlot) (key_attr : Attributes) :
    s.is_key_type_ok key_attr = true ↔
      (key_attr.key_type = PsaType.RawData ∧ s.config.key_type = KeyType.ShaOrText) ∨
      (key_attr.key_type = PsaType.Hmac ∧ s.config.no_mac = false) ∨
      (key_attr.key_type = PsaType.Aes ∧ s.config.key_type = KeyType.Aes) ∨
      ((key_attr.key_type = PsaType.EccKeyPair EccFamily.SecpR1 ∨
          key_attr.key_type = PsaType.EccPublicKey EccFamily.SecpR1) ∧
        key_attr.bits = 256 ∧ s.config.key_type = KeyType.P256EccKey) := by
  rcases key_attr with ⟨lt, kt, b, p⟩
  rcases kt with _ | _ | _ | _ | _ | _ | _ | _ | _ | _ | f | f | g | g <;>
    (try cases f) <;> (try cases g) <;>
      simp [AteccKeySlot.is_key_type_ok, and_assoc]

/-- C3: the permitted-algorithm table: HMAC-SHA-256 (truncated or full
length) requires `no_mac` false, non-`P256EccKey` hardware type and
`ecc_is_private` false; ECDSA with specific SHA-256 requires `is_secret`,
`P256EccKey` and `ecc_is_private`; deterministic ECDSA and every
asymmetric-encryption algorithm are rejected in every configuration. -/
theorem is_permitted_algorithms_ok_table (s : AteccKeySlot) (lt : Lifetime)
    (kt : PsaType) (b n : Nat) (uf : UsageFlags) (h : SignHash)
    (ae : AsymmetricEncryption) :
    (s.is_permitted_algorithms_ok
        ⟨lt, kt, b, ⟨uf, Algorithm.Mac (Mac.Truncated (FullLengthMac.Hmac Hash.Sha256) n)⟩⟩
          = true ↔
      s.config.no_mac = false ∧ s.config.key_type ≠ KeyType.P256EccKey ∧
        s.config.ecc_key_attr.is_private = false) ∧
    (s.is_permitted_algorithms_ok
        ⟨lt, kt, b, ⟨uf, Algorithm.Mac (Mac.FullLength (FullLengthMac.Hmac Hash.Sha256))⟩⟩
          = true ↔
      s.config.no_mac = false ∧ s.config.key_type ≠ KeyType.P256EccKey ∧
        s.config.ecc_key_attr.is_private = false) ∧
    (s.is_permitted_algorithms_ok
        ⟨lt, kt, b, ⟨uf, Algorithm.AsymmetricSignature
          (AsymmetricSignature.Ecdsa (SignHash.Specific Hash.Sha256))⟩⟩ = true ↔
      s.config.is_secret = true ∧ s.config.key_type = KeyType.P256EccKey ∧
        s.config.ecc_key_attr.is_private = true) ∧
    (s.is_permitted_algorithms_ok
        ⟨lt, kt, b, ⟨uf, Algorithm.AsymmetricSignature
          (AsymmetricSignature.DeterministicEcdsa h)⟩⟩ = false) ∧
    (s.is_permitted_algorithms_ok
        ⟨lt, kt, b, ⟨uf, Algorithm.AsymmetricEncryption ae⟩⟩ = false) := by
  refine ⟨?_, ?_, ?_, ?_, ?_⟩
  · simp [AteccKeySlot.is_permitted_algorithms_ok, and_assoc]
  · simp [AteccKeySlot.is_permitted_algorithms_ok, and_assoc]
  · simp [AteccKeySlot.is_permitted_algorithms_ok, and_assoc]
  · rcases h with _ | hh
    · simp [AteccKeySlot.is_permitted_algorithms_ok]
    · cases hh <;> simp [AteccKeySlot.is_permitted_algorithms_ok]
  · simp [AteccKeySlot.is_permitted_algorithms_ok]

/-- C4: the status machine of `set_slot_status`: a `Locked` slot rejects
every request (with `PsaErrorNotPermitted`, leaving the slot unchanged),
a request for `Locked` is always rejected, any other request on a
non-`Locked` slot succeeds and assigns the requested status, and no call
ever moves a slot into `Locked`. -/
theorem set_slot_status_transitions (s : AteccKeySlot) (st : KeySlotStatus) :
    (s.status = KeySlotStatus.Locked →
      (s.set_slot_status st).1 = Except.error ResponseStatus.PsaErrorNotPermitted ∧
        (s.set_slot_status st).2 = s) ∧
    (st = KeySlotStatus.Locked →
      (s.set_slot_status st).1 = Except.error ResponseStatus.PsaErrorNotPermitted) ∧
    (s.status ≠ KeySlotStatus.Locked → st ≠ KeySlotStatus.Locked →
      (s.set_slot_status st).1 = Except.ok () ∧ (s.set_slot_status st).2.status = st) ∧
    ((s.set_slot_status st).2.status = KeySlotStatus.Locked →
      s.status = KeySlotStatus.Locked) := by
  rcases s with ⟨rc, st0, cfg⟩
  cases st0 <;> cases st <;> simp [AteccKeySlot.set_slot_status]

/-- C5: the claim guard `reference_check_and_set` succeeds exactly when
`ref_count` is zero; on success it only sets `ref_count` to one, on
failure it changes nothing; a second claim right after a successful one
fails; and the verdict depends only on `ref_count`, never on status or
configuration. -/
theorem reference_check_and_set_claim_guard (s t : AteccKeySlot) :
    ((s.reference_check_and_set).1 = Except.ok () ↔ s.ref_count = 0) ∧
    (s.ref_count = 0 →
      s.reference_check_and_set = (Except.ok (), { s with ref_count := 1 })) ∧
    (s.ref_count ≠ 0 → s.reference_check_and_set = (Except.error (), s)) ∧
    (s.ref_count = 0 →
      ((s.reference_check_and_set).2.reference_check_and_set).1 = Except.error ()) ∧
    (s.ref_count = t.ref_count →
      (s.reference_check_and_set).1 = (t.reference_check_and_set).1) := by
  rcases s with ⟨rc, st0, cfg⟩
  rcases t with ⟨rc2, st2, cfg2⟩
  cases rc <;> cases rc2 <;>
    simp [AteccKeySlot.reference_check_and_set]

/-- A free, unclaimed private P256 slot. -/
def p256PrivateSlot : AteccKeySlot :=
  { ref_count := 0, status := KeySlotStatus.Free, config := p256PrivateConfig }

/-- C6: when the usage policy permits `sign_hash` or `sign_message`,
`is_usage_flags_ok` accepts only a `P256EccKey` slot whose
`ecc_key_attr.is_private` is set; an `Aes` or `ShaOrText` slot rejects
such a request whatever the other fields hold. -/
theorem is_usage_flags_ok_sign_requires_private_ecc (s : AteccKeySlot)
    (key_attr : Attributes)
    (h : key_attr.policy.usage_flags.sign_hash = true ∨
      key_attr.policy.usage_flags.sign_message = true) :
    (s.is_usage_flags_ok key_attr = true →
      s.config.key_type = KeyType.P256EccKey ∧
        s.config.ecc_key_attr.is_private = true) ∧
    (s.config.key_type = KeyType.Aes ∨ s.config.key_type = KeyType.ShaOrText →
      s.is_usage_flags_ok key_attr = false) := by
  simp only [is_usage_flags_ok_eq]
  constructor
  · intro hok
    rcases h with h | h <;> simp [h] at hok <;> exact hok.2
  · intro hkt
    rcases h with h | h <;> rcases hkt with hkt | hkt <;> simp [h, hkt]

/-- C6 witness: a private P256 slot with a signing request instantiates
the sign-flag rule. -/
theorem is_usage_flags_ok_sign_requires_private_ecc_witness :
    (p256PrivateSlot.is_usage_flags_ok eccSignAttr = true →
      p256PrivateSlot.config.key_type = KeyType.P256EccKey ∧
        p256PrivateSlot.config.ecc_key_attr.is_private = true) ∧
    (p256PrivateSlot.config.key_type = KeyType.Aes ∨
        p256PrivateSlot.config.key_type = KeyType.ShaOrText →
      p256PrivateSlot.is_usage_flags_ok eccSignAttr = false) :=
  is_usage_flags_ok_sign_requires_private_ecc p256PrivateSlot eccSignAttr (Or.inl rfl)

/-- Attributes of a SecpR1 EC public key whose policy permits export and
copy (and no sign flag). -/
def ecPubExportAttr : Attributes :=
  { lifetime := Lifetime.Persistent,
    key_type := PsaType.EccPublicKey EccFamily.SecpR1,
    bits := 256,
    policy :=
      { usage_flags := { clearedFlags with export_ := true, copy := true },
        permitted_algorithms := Algorithm.Hash Hash.Sha256 } }

/-- C7: when the usage policy permits export or copy and no sign flag, a
`P256EccKey` slot accepts exactly when `pub_info` is set and the
software type is an EC or DH public key; every other hardware key type
(`Aes` included) accepts. -/
theorem is_usage_flags_ok_export_copy (s : AteccKeySlot) (key_attr : Attributes)
    (hec : key_attr.policy.usage_flags.export_ = true ∨
      key_attr.policy.usage_flags.copy = true)
    (hsh : key_attr.policy.usage_flags.sign_hash = false)
    (hsm : key_attr.policy.usage_flags.sign_message = false) :
    (s.config.key_type = KeyType.P256EccKey →
      (s.is_usage_flags_ok key_attr = true ↔
        s.config.pub_info = true ∧
          ((∃ f, key_attr.key_type = PsaType.EccPublicKey f) ∨
            ∃ g, key_attr.key_type = PsaType.DhPublicKey g))) ∧
    (s.config.key_type ≠ KeyType.P256EccKey →
      s.is_usage_flags_ok key_attr = true) := by
  simp only [is_usage_flags_ok_eq, hsh, hsm]
  constructor
  · intro hk
    rcases key_attr with ⟨lt, kt, b, ⟨uf, alg⟩⟩
    rcases hec with h | h <;> cases kt <;>
      simp_all [AteccKeySlot.export_copy_ok] <;>
        exact fun _ => ⟨DhFamily.Rfc7919, trivial⟩
  · intro hk
    cases hkt : s.config.key_type <;> rcases hec with h | h <;>
      simp_all [AteccKeySlot.export_copy_ok]

/-- C7 witness: exporting an EC public key out of a P256 slot with
`pub_info` set instantiates the export/copy rule. -/
theorem is_usage_flags_ok_export_copy_witness :
    (p256PrivateSlot.config.key_type = KeyType.P256EccKey →
      (p256PrivateSlot.is_usage_flags_ok ecPubExportAttr = true ↔
        p256PrivateSlot.config.pub_info = true ∧
          ((∃ f, ecPubExportAttr.key_type = PsaType.EccPublicKey f) ∨
            ∃ g, ecPubExportAttr.key_type = PsaType.DhPublicKey g))) ∧
    (p256PrivateSlot.config.key_type ≠ KeyType.P256EccKey →
      p256PrivateSlot.is_usage_flags_ok ecPubExportAttr = true) :=
  is_usage_flags_ok_export_copy p256PrivateSlot ecPubExportAttr (Or.inl rfl) rfl rfl

/-- The C8 scenario slot with adversarial extra fields: AES key type and
MAC enabled, but with `ecc_key_attr.is_private` set. -/
def aesPrivateSlot : AteccKeySlot :=
  { ref_count := 0, status := KeySlotStatus.Free,
    config := { aesConfig with ecc_key_attr := { clearedEccAttr with is_private := true } } }

/-- An HMAC key request with full-length HMAC-SHA-256 whose usage flags
include `sign_hash`. -/
def hmacSignAttr : Attributes :=
  { hmacAttr with
    policy := { hmacAttr.policy with
      usage_flags := { clearedFlags with sign_hash := true } } }

/-- C8 counterexample: an AES slot with `no_mac` false, requested HMAC
key with permitted algorithm HMAC-SHA-256 — yet the full check fails,
because the usage flags include `sign_hash` (rejected on a non-ECC slot)
and the slot's `ecc_key_attr.is_private` is set (rejected by the HMAC
algorithm rule).  So the check does not succeed for every choice of
usage flags. -/
theorem aes_hmac_any_flags_counterexample :
    aesPrivateSlot.config.key_type = KeyType.Aes ∧
    aesPrivateSlot.config.no_mac = false ∧
    aesPrivateSlot.key_attr_vs_config hmacSignAttr =
      Except.error ResponseStatus.PsaErrorNotSupported :=
  ⟨rfl, rfl, rfl⟩

/-- C8 amended: on a slot whose hardware key type is `Aes`, `no_mac` is
false and `ecc_key_attr.is_private` is false, an HMAC key with permitted
algorithm HMAC-SHA-256 (truncated or full length) passes the full check
for every choice of usage flags that requests neither `sign_hash` nor
`sign_message`. -/
theorem aes_hmac_compat_amended (s : AteccKeySlot) (lt : Lifetime) (b n : Nat)
    (uf : UsageFlags)
    (hkt : s.config.key_type = KeyType.Aes) (hnm : s.config.no_mac = false)
    (hpriv : s.config.ecc_key_attr.is_private = false)
    (hsh : uf.sign_hash = false) (hsm : uf.sign_message = false) :
    s.key_attr_vs_config
        ⟨lt, PsaType.Hmac, b,
          ⟨uf, Algorithm.Mac (Mac.Truncated (FullLengthMac.Hmac Hash.Sha256) n)⟩⟩
      = Except.ok () ∧
    s.key_attr_vs_config
        ⟨lt, PsaType.Hmac, b,
          ⟨uf, Algorithm.Mac (Mac.FullLength (FullLengthMac.Hmac Hash.Sha256))⟩⟩
      = Except.ok () := by
  constructor <;>
    · unfold AteccKeySlot.key_attr_vs_config
      simp [AteccKeySlot.is_key_type_ok, is_usage_flags_ok_eq,
        AteccKeySlot.export_copy_ok, AteccKeySlot.is_permitted_algorithms_ok,
        hkt, hnm, hpriv, hsh, hsm]

/-- C8 amended witness: the fully benign AES slot and HMAC request from
the source's scenario 3. -/
theorem aes_hmac_compat_amended_witness :
    freeAesSlot.key_attr_vs_config
        ⟨Lifetime.Persistent, PsaType.Hmac, 256,
          ⟨clearedFlags, Algorithm.Mac (Mac.Truncated (FullLengthMac.Hmac Hash.Sha256) 16)⟩⟩
      = Except.ok () ∧
    freeAesSlot.key_attr_vs_config
        ⟨Lifetime.Persistent, PsaType.Hmac, 256,
          ⟨clearedFlags, Algorithm.Mac (Mac.FullLength (FullLengthMac.Hmac Hash.Sha256))⟩⟩
      = Except.ok () :=
  aes_hmac_compat_amended freeAesSlot Lifetime.Persistent 256 16 clearedFlags
    rfl rfl rfl rfl rfl

/-- C9: whenever `set_slot_status` fails, the slot is left unchanged in
every field. -/
theorem set_slot_status_error_unchanged (s : AteccKeySlot) (st : KeySlotStatus)
    (e : ResponseStatus) (h : (s.set_slot_status st).1 = Except.error e) :
    (s.set_slot_status st).2 = s := by
  rcases s with ⟨rc, st0, cfg⟩
  cases st0 <;> cases st <;> simp_all [AteccKeySlot.set_slot_status]

/-- C9 witness: a locked slot rejects a request for `Free` and is
unchanged. -/
theorem set_slot_status_error_unchanged_witness :
    (lockedP256Slot.set_slot_status KeySlotStatus.Free).2 = lockedP256Slot :=
  set_slot_status_error_unchanged lockedP256Slot KeySlotStatus.Free
    ResponseStatus.PsaErrorNotPermitted rfl

/-- C10: for software key types `RawData`, `Hmac` and `Aes`,
`is_key_type_ok` never reads the requested bit length: two descriptors
differing only in `bits` get the same verdict on every slot. -/
theorem is_key_type_ok_ignores_bits (s : AteccKeySlot) (lt : Lifetime)
    (kt : PsaType) (p : Policy) (b1 b2 : Nat)
    (h : kt = PsaType.RawData ∨ kt = PsaType.Hmac ∨ kt = PsaType.Aes) :
    s.is_key_type_ok ⟨lt, kt, b1, p⟩ = s.is_key_type_ok ⟨lt, kt, b2, p⟩ := by
  rcases h with h | h | h <;> subst h <;> rfl

/-- C10 witness: an AES key request of 128 and of 256 bits get the same
verdict. -/
theorem is_key_type_ok_ignores_bits_witness :
    freeAesSlot.is_key_type_ok ⟨Lifetime.Persistent, PsaType.Aes, 128, hmacAttr.policy⟩ =
      freeAesSlot.is_key_type_ok ⟨Lifetime.Persistent, PsaType.Aes, 256, hmacAttr.policy⟩ :=
  is_key_type_ok_ignores_bits freeAesSlot Lifetime.Persistent PsaType.Aes
    hmacAttr.policy 128 256 (Or.inr (Or.inr rfl))
